import Mathlib

/-!
Shallow embedding of the anAntaSound adaptive classification pipeline
(`BreathingAnalyzer`, `AdaptiveAudioProcessor` and the spectral feature
extractor) together with theorems checking the natural-language
specification against it.

Conventions of the embedding:
C++ `double` values are modelled as real numbers (`ℝ`); `std::sqrt`
is `Real.sqrt`; `std::vector`/`std::deque` are `List`; `size_t` is `ℕ`.
The buffer-based `AudioAnalyzer` declared in `src/anantasound_core.hpp`
has no implementation in the repository (only its declaration and its
callers are present), so `AudioAnalyzer::analyzeAudio` is abstracted as a
function parameter `audioAnalyze : List ℝ → AudioAnalysisResult`; all
theorems about its callers hold for every such function.
-/

namespace AnantaSound

/-- Breathing states, from `breathing_analyzer.hpp` (enum `BreathingState`,
declaration order preserved: it is the `std::map` key order). -/
inductive BreathingState where
  | NORMAL
  | DEEP
  | SHALLOW
  | RAPID
  | IRREGULAR
  | HOLDING
  | UNKNOWN
  deriving DecidableEq, Repr

/-- Breathing patterns, from `breathing_analyzer.hpp` (enum `BreathingPattern`). -/
inductive BreathingPattern where
  | REGULAR
  | IRREGULAR
  | CYCLICAL
  | STRESSED
  | EXERCISE
  | RELAXED
  | UNKNOWN
  deriving DecidableEq, Repr

/-- Emotional states, from `adaptive_audio_processor.hpp` (enum `EmotionalState`,
declaration order preserved: CALM = 0, …, UNKNOWN = 5). -/
inductive EmotionalState where
  | CALM
  | EXCITED
  | STRESSED
  | FOCUSED
  | RELAXED
  | UNKNOWN
  deriving DecidableEq, Repr, Fintype

/-- The scalar fields of `AudioAnalysisResult` (`anantasound_core.hpp`) that are
read by `BreathingAnalyzer` and `AdaptiveAudioProcessor`.  The spectrum vectors
and the timestamp are never read by the code under study and are omitted. -/
structure AudioAnalysisResult where
  fundamental_frequency : ℝ
  volume_level : ℝ
  spectral_centroid : ℝ
  spectral_rolloff : ℝ
  zero_crossing_rate : ℝ
  tempo : ℝ

/-- The default constructor of `AudioAnalysisResult`: all scalar features 0. -/
def zeroAudioAnalysis : AudioAnalysisResult :=
  { fundamental_frequency := 0
    volume_level := 0
    spectral_centroid := 0
    spectral_rolloff := 0
    zero_crossing_rate := 0
    tempo := 0 }

/-- An analysis on which the three emotion heuristics disagree three ways:
fundamental frequency 3 Hz (breathing heuristic: EXCITED), zero-crossing
rate 0.4 at tempo 100 (rhythmic heuristic: FOCUSED), centroid 1000 Hz and
rolloff 3000 Hz (spectral heuristic: CALM). -/
noncomputable def tieAnalysis : AudioAnalysisResult :=
  { fundamental_frequency := 3
    volume_level := 0.2
    spectral_centroid := 1000
    spectral_rolloff := 3000
    zero_crossing_rate := 0.4
    tempo := 100 }

/-- `BreathingAnalysisResult` (`breathing_analyzer.hpp`); the timestamp is
omitted. -/
structure BreathingAnalysisResult where
  current_state : BreathingState
  pattern : BreathingPattern
  breathing_rate : ℝ
  breathing_depth : ℝ
  breathing_regularity : ℝ
  stress_level : ℝ
  relaxation_level : ℝ
  breathing_cycle : List ℝ

/-- The default constructor of `BreathingAnalysisResult`: UNKNOWN state and
pattern, all scalar levels 0.0, empty cycle. -/
def defaultBreathingAnalysisResult : BreathingAnalysisResult :=
  { current_state := BreathingState.UNKNOWN
    pattern := BreathingPattern.UNKNOWN
    breathing_rate := 0
    breathing_depth := 0
    breathing_regularity := 0
    stress_level := 0
    relaxation_level := 0
    breathing_cycle := [] }

/-- The mutable state of a `BreathingAnalyzer` instance: the three bounded
histories, the shared capacity `history_size_` and the six classification
thresholds.  `min_breathing_frequency_` and `max_breathing_frequency_` only
configure the missing inner `AudioAnalyzer` and are omitted. -/
structure BreathingAnalyzer where
  analysis_window_size : ℕ
  sample_rate : ℕ
  analysis_history : List BreathingAnalysisResult
  breathing_rate_history : List ℝ
  amplitude_history : List ℝ
  history_size : ℕ
  normal_breathing_rate_min : ℝ
  normal_breathing_rate_max : ℝ
  deep_breathing_threshold : ℝ
  shallow_breathing_threshold : ℝ
  rapid_breathing_threshold : ℝ
  irregularity_threshold : ℝ

/-- `BreathingAnalyzer::initializeDefaultThresholds` (part_007:433-440). -/
noncomputable def initializeDefaultThresholds (a : BreathingAnalyzer) : BreathingAnalyzer :=
  { a with
    normal_breathing_rate_min := 8
    normal_breathing_rate_max := 20
    deep_breathing_threshold := 0.7
    shallow_breathing_threshold := 0.3
    rapid_breathing_threshold := 25
    irregularity_threshold := 0.7 }

/-- The `BreathingAnalyzer` constructor (part_007:9-18): empty histories,
`history_size_ = 20`, default thresholds. -/
noncomputable def mkBreathingAnalyzer (fft_size sample_rate : ℕ) : BreathingAnalyzer :=
  initializeDefaultThresholds
    { analysis_window_size := fft_size
      sample_rate := sample_rate
      analysis_history := []
      breathing_rate_history := []
      amplitude_history := []
      history_size := 20
      normal_breathing_rate_min := 0
      normal_breathing_rate_max := 0
      deep_breathing_threshold := 0
      shallow_breathing_threshold := 0
      rapid_breathing_threshold := 0
      irregularity_threshold := 0 }

/-- One bounded-history push: `push_back` followed by a single `pop_front`
(deque) / `erase(begin())` (vector) when the size exceeds the capacity.
Shared shape of `BreathingAnalyzer::updateHistory` (part_007:370-385) and
`AdaptiveAudioProcessor::updateHistory` (adaptive_audio_processor.cpp:345-356). -/
def pushBounded {α : Type} (cap : ℕ) (h : List α) (x : α) : List α :=
  let h' := h ++ [x]
  if cap < h'.length then h'.drop 1 else h'

/-- The mean `accumulate(..)/size()` used by `classifyBreathingPattern`,
`calculateBreathingRegularity` and `getAverageBreathingRate`.  Lean's
division-by-zero convention gives 0 on the empty list; every use in the
source is guarded to non-empty lists. -/
noncomputable def meanRate (l : List ℝ) : ℝ := l.sum / l.length

/-- The population variance `sum((r - mean)^2)/size()` computed inline by
`classifyBreathingPattern` (part_007:250-257) and
`calculateBreathingRegularity` (part_007:298-305). -/
noncomputable def rateVariance (l : List ℝ) : ℝ :=
  (l.map (fun rate => (rate - meanRate l) * (rate - meanRate l))).sum / l.length

/-- `BreathingAnalyzer::classifyBreathingState` (part_007:211-242): ordered
rule precedence on (rate, depth, regularity) against the six thresholds. -/
noncomputable def classifyBreathingState (a : BreathingAnalyzer)
    (rate depth regularity : ℝ) : BreathingState :=
  if rate < a.normal_breathing_rate_min then
    if a.deep_breathing_threshold < depth then BreathingState.DEEP
    else BreathingState.HOLDING
  else if a.rapid_breathing_threshold < rate then BreathingState.RAPID
  else if a.normal_breathing_rate_max < rate then
    if depth < a.shallow_breathing_threshold then BreathingState.SHALLOW
    else BreathingState.RAPID
  else if regularity < a.irregularity_threshold then BreathingState.IRREGULAR
  else if a.deep_breathing_threshold < depth then BreathingState.DEEP
  else if depth < a.shallow_breathing_threshold then BreathingState.SHALLOW
  else BreathingState.NORMAL

/-- `BreathingAnalyzer::classifyBreathingPattern` (part_007:244-274).
In C++ a zero mean makes `std_dev / mean_rate` NaN (both comparisons false);
that input is unreachable (rates are clamped to [4, 60]) and every theorem
below assumes a positive mean, where real and IEEE semantics agree. -/
noncomputable def classifyBreathingPattern (rate_history : List ℝ) : BreathingPattern :=
  if rate_history.length < 3 then BreathingPattern.UNKNOWN
  else
    let coefficient_of_variation :=
      Real.sqrt (rateVariance rate_history) / meanRate rate_history
    if coefficient_of_variation < 0.1 then BreathingPattern.REGULAR
    else if 0.3 < coefficient_of_variation then BreathingPattern.IRREGULAR
    else if meanRate rate_history < 8 then BreathingPattern.RELAXED
    else if 20 < meanRate rate_history then BreathingPattern.STRESSED
    else if 15 < meanRate rate_history then BreathingPattern.EXERCISE
    else BreathingPattern.CYCLICAL

/-- `BreathingAnalyzer::calculateBreathingRate` (part_007:276-285):
60 times the fundamental frequency, clamped to [4, 60]. -/
noncomputable def calculateBreathingRate (analysis : AudioAnalysisResult) : ℝ :=
  max 4 (min 60 (analysis.fundamental_frequency * 60))

/-- `BreathingAnalyzer::calculateBreathingDepth` (part_007:287-290). -/
noncomputable def calculateBreathingDepth (analysis : AudioAnalysisResult) : ℝ :=
  min 1 (analysis.volume_level * 2)

/-- `BreathingAnalyzer::calculateBreathingRegularity` (part_007:292-310). -/
noncomputable def calculateBreathingRegularity (rate_history : List ℝ) : ℝ :=
  if rate_history.length < 2 then 1
  else
    max 0 (1 - min 1 (Real.sqrt (rateVariance rate_history) / meanRate rate_history))

/-- `BreathingAnalyzer::calculateStressLevel` (part_007:312-329). -/
noncomputable def calculateStressLevel (a : BreathingAnalyzer)
    (rate depth regularity : ℝ) : ℝ :=
  let s0 : ℝ :=
    if a.normal_breathing_rate_max < rate then
      (rate - a.normal_breathing_rate_max) /
        (a.rapid_breathing_threshold - a.normal_breathing_rate_max)
    else 0
  let s1 := s0 + (1 - regularity) * 0.5
  let s2 :=
    if depth < a.shallow_breathing_threshold then
      s1 + (a.shallow_breathing_threshold - depth) / a.shallow_breathing_threshold
    else s1
  min 1 s2

/-- `BreathingAnalyzer::calculateRelaxationLevel` (part_007:331-348). -/
noncomputable def calculateRelaxationLevel (a : BreathingAnalyzer)
    (rate depth regularity : ℝ) : ℝ :=
  let r0 : ℝ :=
    if a.normal_breathing_rate_min ≤ rate ∧ rate ≤ a.normal_breathing_rate_max then 0.4
    else 0
  let r1 := r0 + regularity * 0.3
  let r2 :=
    if a.deep_breathing_threshold < depth then
      r1 + (depth - a.deep_breathing_threshold) * 0.3
    else r1
  min 1 r2

/-- `BreathingAnalyzer::filterBreathingFrequencies` (part_007:387-397):
interior samples are smoothed by a (1, 2, 1)/4 kernel, boundary samples are
kept.  The C++ loop bound `filtered.size() - 1` underflows on an empty
buffer; the function is only ever called on non-empty buffers. -/
noncomputable def filterBreathingFrequencies (audio_buffer : List ℝ) : List ℝ :=
  (List.range audio_buffer.length).map (fun i =>
    if 1 ≤ i ∧ i + 1 < audio_buffer.length then
      0.25 * (audio_buffer.getD (i - 1) 0 + 2 * audio_buffer.getD i 0 +
        audio_buffer.getD (i + 1) 0)
    else audio_buffer.getD i 0)

/-- `BreathingAnalyzer::findBreathingPeaks` (part_007:399-416): indices of
strict local maxima above 0.1. -/
noncomputable def findBreathingPeaks (filtered_audio : List ℝ) : List ℕ :=
  if filtered_audio.length < 3 then []
  else
    (List.range filtered_audio.length).filter (fun i =>
      1 ≤ i ∧ i + 1 < filtered_audio.length ∧
      filtered_audio.getD (i - 1) 0 < filtered_audio.getD i 0 ∧
      filtered_audio.getD (i + 1) 0 < filtered_audio.getD i 0 ∧
      (0.1 : ℝ) < filtered_audio.getD i 0)

/-- `BreathingAnalyzer::extractBreathingCycle` (part_007:350-368). -/
noncomputable def extractBreathingCycle (audio_buffer : List ℝ) : List ℝ :=
  let peaks := findBreathingPeaks audio_buffer
  if peaks.length < 2 then audio_buffer
  else
    let cycle_start := peaks.getD 0 0
    let cycle_end := peaks.getD 1 0
    if cycle_start < cycle_end ∧ cycle_end < audio_buffer.length then
      (audio_buffer.drop cycle_start).take (cycle_end - cycle_start)
    else audio_buffer

namespace BreathingAnalyzer

/-- `BreathingAnalyzer::updateHistory` (part_007:370-385): push the result to
the three parallel histories, each trimmed to `history_size_`. -/
noncomputable def updateHistory (a : BreathingAnalyzer)
    (result : BreathingAnalysisResult) : BreathingAnalyzer :=
  { a with
    analysis_history := pushBounded a.history_size a.analysis_history result
    breathing_rate_history :=
      pushBounded a.history_size a.breathing_rate_history result.breathing_rate
    amplitude_history :=
      pushBounded a.history_size a.amplitude_history result.breathing_depth }

/-- `BreathingAnalyzer::analyzeBreathing` (part_007:31-74).  `audioAnalyze`
stands for the missing `AudioAnalyzer::analyzeAudio`; the mutex is the
callerwise serialization of the state-passing below. -/
noncomputable def analyzeBreathing (audioAnalyze : List ℝ → AudioAnalysisResult)
    (a : BreathingAnalyzer) (audio_buffer : List ℝ) :
    BreathingAnalyzer × BreathingAnalysisResult :=
  if audio_buffer.isEmpty then (a, defaultBreathingAnalysisResult)
  else
    let filtered_audio := filterBreathingFrequencies audio_buffer
    let audio_analysis := audioAnalyze filtered_audio
    let rate := calculateBreathingRate audio_analysis
    let depth := calculateBreathingDepth audio_analysis
    let regularity := calculateBreathingRegularity a.breathing_rate_history
    let result : BreathingAnalysisResult :=
      { current_state := classifyBreathingState a rate depth regularity
        pattern := classifyBreathingPattern a.breathing_rate_history
        breathing_rate := rate
        breathing_depth := depth
        breathing_regularity := regularity
        stress_level := calculateStressLevel a rate depth regularity
        relaxation_level := calculateRelaxationLevel a rate depth regularity
        breathing_cycle := extractBreathingCycle filtered_audio }
    (updateHistory a result, result)

end BreathingAnalyzer

/-- The frame-start positions of the overlap loop in
`BreathingAnalyzer::analyzeBreathingWithOverlap` (part_007:86):
`for (start = 0; start + window <= len; start += hop)`.  The C++ loop does
not terminate when `hop = 0` (window size below 4); the guard `0 < hop`
makes the Lean function total and is discharged by the claims, which assume
a window size of at least 4. -/
def overlapStarts (len window hop : ℕ) (start : ℕ) : List ℕ :=
  if _h : 0 < hop ∧ start + window ≤ len then
    start :: overlapStarts len window hop (start + hop)
  else []
termination_by len + 1 - start
decreasing_by omega

namespace BreathingAnalyzer

/-- Sequential per-frame analysis: each frame is analyzed with the state left
by the previous frame, results collected in frame order (the loop body of
part_007:86-90). -/
noncomputable def runFrames (audioAnalyze : List ℝ → AudioAnalysisResult) :
    BreathingAnalyzer → List (List ℝ) → BreathingAnalyzer × List BreathingAnalysisResult
  | a, [] => (a, [])
  | a, w :: ws =>
    let z := analyzeBreathing audioAnalyze a w
    let rest := runFrames audioAnalyze z.1 ws
    (rest.1, z.2 :: rest.2)

/-- `BreathingAnalyzer::analyzeBreathingWithOverlap` (part_007:76-93):
a buffer shorter than one analysis window yields the single analysis of the
whole buffer; otherwise frames of the window size are taken at stride
`window / 4` and analyzed in order. -/
noncomputable def analyzeBreathingWithOverlap
    (audioAnalyze : List ℝ → AudioAnalysisResult) (a : BreathingAnalyzer)
    (audio_buffer : List ℝ) : BreathingAnalyzer × List BreathingAnalysisResult :=
  if audio_buffer.length < a.analysis_window_size then
    let z := analyzeBreathing audioAnalyze a audio_buffer
    (z.1, [z.2])
  else
    let hop_size := a.analysis_window_size / 4
    runFrames audioAnalyze a
      ((overlapStarts audio_buffer.length a.analysis_window_size hop_size 0).map
        (fun start => (audio_buffer.drop start).take a.analysis_window_size))

/-- `BreathingAnalyzer::getCurrentBreathingState` (part_007:95-103). -/
noncomputable def getCurrentBreathingState (a : BreathingAnalyzer) : BreathingState :=
  if a.analysis_history.isEmpty then BreathingState.UNKNOWN
  else (a.analysis_history.getLastD defaultBreathingAnalysisResult).current_state

/-- `BreathingAnalyzer::getBreathingPattern` (part_007:105-113). -/
noncomputable def getBreathingPattern (a : BreathingAnalyzer) : BreathingPattern :=
  if a.analysis_history.isEmpty then BreathingPattern.UNKNOWN
  else (a.analysis_history.getLastD defaultBreathingAnalysisResult).pattern

/-- `BreathingAnalyzer::getAverageBreathingRate` (part_007:115-124). -/
noncomputable def getAverageBreathingRate (a : BreathingAnalyzer) : ℝ :=
  if a.breathing_rate_history.isEmpty then 0
  else meanRate a.breathing_rate_history

/-- `BreathingAnalyzer::getStressLevel` (part_007:126-134). -/
noncomputable def getStressLevel (a : BreathingAnalyzer) : ℝ :=
  if a.analysis_history.isEmpty then 0
  else (a.analysis_history.getLastD defaultBreathingAnalysisResult).stress_level

/-- `BreathingAnalyzer::getRelaxationLevel` (part_007:136-144). -/
noncomputable def getRelaxationLevel (a : BreathingAnalyzer) : ℝ :=
  if a.analysis_history.isEmpty then 0
  else (a.analysis_history.getLastD defaultBreathingAnalysisResult).relaxation_level

end BreathingAnalyzer

/-- `BreathingAnalyzer::BreathingStatistics` (breathing_analyzer.hpp):
a plain aggregate with no field initializers and no constructor, so a
default-initialized local instance has indeterminate field values. -/
structure BreathingStatistics where
  average_breathing_rate : ℝ
  average_stress_level : ℝ
  average_relaxation_level : ℝ
  most_common_state : BreathingState
  most_common_pattern : BreathingPattern
  total_analyses : ℕ

/-- The keys of a `std::map<BreathingState, int>` are iterated in enum order. -/
def stateKeyOrder : List BreathingState :=
  [BreathingState.NORMAL, BreathingState.DEEP, BreathingState.SHALLOW,
   BreathingState.RAPID, BreathingState.IRREGULAR, BreathingState.HOLDING,
   BreathingState.UNKNOWN]

/-- The keys of a `std::map<BreathingPattern, int>` are iterated in enum order. -/
def patternKeyOrder : List BreathingPattern :=
  [BreathingPattern.REGULAR, BreathingPattern.IRREGULAR, BreathingPattern.CYCLICAL,
   BreathingPattern.STRESSED, BreathingPattern.EXERCISE, BreathingPattern.RELAXED,
   BreathingPattern.UNKNOWN]

/-- `std::max_element` over a key-ordered sequence with comparator
`a.second < b.second`: the first element attaining the maximal count.
Returns the supplied fallback on an empty sequence (in C++ dereferencing
`end()`, which every caller rules out). -/
def firstMaxBy {α : Type} (count : α → ℕ) (fallbackValue : α) (keys : List α) : α :=
  match keys with
  | [] => fallbackValue
  | x :: xs => xs.foldl (fun best e => if count best < count e then e else best) x

namespace BreathingAnalyzer

/-- The `state_counts` tally of `getStatistics` (part_007:183-199). -/
def mostCommonState (hist : List BreathingAnalysisResult) : BreathingState :=
  let count := fun s => (hist.filter (fun r => r.current_state = s)).length
  firstMaxBy count BreathingState.UNKNOWN
    (stateKeyOrder.filter (fun s => count s ≠ 0))

/-- The `pattern_counts` tally of `getStatistics` (part_007:184-204). -/
def mostCommonPattern (hist : List BreathingAnalysisResult) : BreathingPattern :=
  let count := fun p => (hist.filter (fun r => r.pattern = p)).length
  firstMaxBy count BreathingPattern.UNKNOWN
    (patternKeyOrder.filter (fun p => count p ≠ 0))

/-- `BreathingAnalyzer::getStatistics` (part_007:168-209).  The local
`BreathingStatistics stats;` is default-initialized, hence indeterminate;
the parameter `init` stands for that indeterminate value, which is returned
unchanged when the history is empty. -/
noncomputable def getStatistics (init : BreathingStatistics)
    (a : BreathingAnalyzer) : BreathingStatistics :=
  if a.analysis_history.isEmpty then init
  else
    { average_breathing_rate := getAverageBreathingRate a
      average_stress_level :=
        (a.analysis_history.map (fun r => r.stress_level)).sum / a.analysis_history.length
      average_relaxation_level :=
        (a.analysis_history.map (fun r => r.relaxation_level)).sum / a.analysis_history.length
      most_common_state := mostCommonState a.analysis_history
      most_common_pattern := mostCommonPattern a.analysis_history
      total_analyses := a.analysis_history.length }

end BreathingAnalyzer

/-- `AdaptationParameters` (`adaptive_audio_processor.hpp`). -/
structure AdaptationParameters where
  volume_multiplier : ℝ
  tempo_multiplier : ℝ
  bass_boost : ℝ
  treble_boost : ℝ
  reverb_amount : ℝ
  echo_delay : ℝ

/-- The default constructor of `AdaptationParameters`: the neutral preset
(unit multipliers, no boost or effect). -/
def defaultAdaptationParameters : AdaptationParameters :=
  { volume_multiplier := 1
    tempo_multiplier := 1
    bass_boost := 0
    treble_boost := 0
    reverb_amount := 0
    echo_delay := 0 }

/-- `AdaptationResult` (`adaptive_audio_processor.hpp`); timestamp omitted. -/
structure AdaptationResult where
  processed_audio : List ℝ
  detected_emotion : EmotionalState
  applied_parameters : AdaptationParameters
  confidence : ℝ

/-- The default constructor of `AdaptationResult`. -/
def defaultAdaptationResult : AdaptationResult :=
  { processed_audio := []
    detected_emotion := EmotionalState.UNKNOWN
    applied_parameters := defaultAdaptationParameters
    confidence := 0 }

/-- The mutable state of an `AdaptiveAudioProcessor` instance.  The preset
map `emotion_presets_` is a partial function on the finite enum. -/
structure AdaptiveAudioProcessor where
  emotion_presets : EmotionalState → Option AdaptationParameters
  analysis_window_size : ℕ
  sample_rate : ℕ
  adaptation_sensitivity : ℝ
  emotion_history : List EmotionalState
  parameter_history : List AdaptationParameters
  history_size : ℕ

/-- `AdaptiveAudioProcessor::initializeEmotionPresets`
(adaptive_audio_processor.cpp:131-181); UNKNOWN has no preset. -/
noncomputable def initializeEmotionPresets :
    EmotionalState → Option AdaptationParameters
  | EmotionalState.CALM => some
      { volume_multiplier := 0.8, tempo_multiplier := 0.9, bass_boost := 0.2,
        treble_boost := 0.1, reverb_amount := 0.3, echo_delay := 0.1 }
  | EmotionalState.EXCITED => some
      { volume_multiplier := 1.2, tempo_multiplier := 1.1, bass_boost := 0.4,
        treble_boost := 0.3, reverb_amount := 0.1, echo_delay := 0 }
  | EmotionalState.STRESSED => some
      { volume_multiplier := 0.7, tempo_multiplier := 0.8, bass_boost := 0.1,
        treble_boost := 0, reverb_amount := 0.5, echo_delay := 0.2 }
  | EmotionalState.FOCUSED => some
      { volume_multiplier := 1, tempo_multiplier := 1, bass_boost := 0,
        treble_boost := 0.2, reverb_amount := 0, echo_delay := 0 }
  | EmotionalState.RELAXED => some
      { volume_multiplier := 0.9, tempo_multiplier := 0.85, bass_boost := 0.3,
        treble_boost := 0, reverb_amount := 0.4, echo_delay := 0.15 }
  | EmotionalState.UNKNOWN => none

/-- The `AdaptiveAudioProcessor` constructor (adaptive_audio_processor.cpp:9-17):
sensitivity 0.7, `history_size_ = 10`, empty histories, default presets. -/
noncomputable def mkAdaptiveAudioProcessor (fft_size sample_rate : ℕ) :
    AdaptiveAudioProcessor :=
  { emotion_presets := initializeEmotionPresets
    analysis_window_size := fft_size
    sample_rate := sample_rate
    adaptation_sensitivity := 0.7
    emotion_history := []
    parameter_history := []
    history_size := 10 }

/-- Amplitude clamping `max(-1.0, min(1.0, s))` used by every audio effect. -/
noncomputable def clampSample (s : ℝ) : ℝ := max (-1) (min 1 s)

namespace AdaptiveAudioProcessor

/-- `AdaptiveAudioProcessor::applyVolumeAdjustment`
(adaptive_audio_processor.cpp:208-216). -/
noncomputable def applyVolumeAdjustment (buf : List ℝ) (multiplier : ℝ) : List ℝ :=
  buf.map (fun s => clampSample (s * multiplier))

/-- The resampling loop of `applyTempoAdjustment`
(adaptive_audio_processor.cpp:227-232):
`for (double i = 0; i < size; i += multiplier) push(audio[(size_t)i])`.
The C++ loop does not terminate for `multiplier ≤ 0`; the extra guard
`0 < multiplier` makes the Lean function total (all preset multipliers are
in [0.8, 1.1]). -/
noncomputable def tempoLoop (buf : List ℝ) (multiplier : ℝ) (i : ℝ) : List ℝ :=
  if h : 0 < multiplier ∧ i < buf.length then
    let index := ⌊i⌋.toNat
    (if index < buf.length then [buf.getD index 0] else []) ++
      tempoLoop buf multiplier (i + multiplier)
  else []
termination_by Nat.ceil ((buf.length - i) / multiplier)
decreasing_by
  have hm := h.1
  have hi := h.2
  have key : ((buf.length : ℝ) - (i + multiplier)) / multiplier =
      ((buf.length : ℝ) - i) / multiplier - 1 := by
    field_simp
    ring
  rw [key]
  set t : ℝ := ((buf.length : ℝ) - i) / multiplier with ht
  have htpos : 0 < t := div_pos (by linarith) hm
  have h1 : 1 ≤ Nat.ceil t := by
    have := Nat.ceil_pos.mpr htpos
    omega
  have h2 : Nat.ceil (t - 1) ≤ Nat.ceil t - 1 := by
    rw [Nat.ceil_le]
    have hle := Nat.le_ceil t
    have hcast : ((Nat.ceil t - 1 : ℕ) : ℝ) = (Nat.ceil t : ℝ) - 1 := by
      have : ((1 : ℕ) : ℝ) ≤ (Nat.ceil t : ℝ) := by exact_mod_cast h1
      push_cast [Nat.cast_sub h1]
      ring
    rw [hcast]
    linarith
  omega

/-- `AdaptiveAudioProcessor::applyTempoAdjustment`
(adaptive_audio_processor.cpp:218-235). -/
noncomputable def applyTempoAdjustment (buf : List ℝ) (multiplier : ℝ) : List ℝ :=
  if |multiplier - 1| < 0.01 then buf
  else tempoLoop buf multiplier 0

/-- The in-place first-difference boost loop shared by `applyBassBoost` and
`applyTrebleBoost`: `result[i] += alpha * (result[i] - result[i-1])` reads
the already-updated previous sample, then clamps. -/
noncomputable def boostLoop (alpha : ℝ) : ℝ → List ℝ → List ℝ
  | _, [] => []
  | prev, x :: xs =>
    let y := clampSample (x + alpha * (x - prev))
    y :: boostLoop alpha y xs

/-- `AdaptiveAudioProcessor::applyBassBoost`
(adaptive_audio_processor.cpp:237-252). -/
noncomputable def applyBassBoost (buf : List ℝ) (boost : ℝ) : List ℝ :=
  if boost ≤ 0 then buf
  else
    match buf with
    | [] => []
    | x :: xs => x :: boostLoop (boost * 0.1) x xs

/-- `AdaptiveAudioProcessor::applyTrebleBoost`
(adaptive_audio_processor.cpp:254-269); the body is identical to
`applyBassBoost`. -/
noncomputable def applyTrebleBoost (buf : List ℝ) (boost : ℝ) : List ℝ :=
  if boost ≤ 0 then buf
  else
    match buf with
    | [] => []
    | x :: xs => x :: boostLoop (boost * 0.1) x xs

/-- `AdaptiveAudioProcessor::applyReverb`
(adaptive_audio_processor.cpp:271-287): a delayed copy of the original
buffer scaled by `0.3 * amount` is mixed in and clamped. -/
noncomputable def applyReverb (sample_rate : ℕ) (buf : List ℝ) (amount : ℝ) : List ℝ :=
  if amount ≤ 0 then buf
  else
    let delay_samples := (⌊(sample_rate : ℝ) * 0.1 * amount⌋).toNat
    let decay := 0.3 * amount
    (List.range buf.length).map (fun i =>
      if delay_samples ≤ i then
        clampSample (buf.getD i 0 + decay * buf.getD (i - delay_samples) 0)
      else buf.getD i 0)

/-- `AdaptiveAudioProcessor::applyEcho`
(adaptive_audio_processor.cpp:289-304). -/
noncomputable def applyEcho (sample_rate : ℕ) (buf : List ℝ) (delay : ℝ) : List ℝ :=
  if delay ≤ 0 then buf
  else
    let delay_samples := (⌊(sample_rate : ℝ) * delay⌋).toNat
    let echo_level : ℝ := 0.3
    (List.range buf.length).map (fun i =>
      if delay_samples ≤ i then
        clampSample (buf.getD i 0 + echo_level * buf.getD (i - delay_samples) 0)
      else buf.getD i 0)

/-- `AdaptiveAudioProcessor::processAudioWithParameters`
(adaptive_audio_processor.cpp:62-77): the six effects applied in order. -/
noncomputable def processAudioWithParameters (p : AdaptiveAudioProcessor)
    (input : List ℝ) (parameters : AdaptationParameters) : List ℝ :=
  applyEcho p.sample_rate
    (applyReverb p.sample_rate
      (applyTrebleBoost
        (applyBassBoost
          (applyTempoAdjustment
            (applyVolumeAdjustment input parameters.volume_multiplier)
            parameters.tempo_multiplier)
          parameters.bass_boost)
        parameters.treble_boost)
      parameters.reverb_amount)
    parameters.echo_delay

/-- `AdaptiveAudioProcessor::analyzeBreathingPattern`
(adaptive_audio_processor.cpp:306-317). -/
noncomputable def analyzeBreathingPattern (analysis : AudioAnalysisResult) :
    EmotionalState :=
  if analysis.fundamental_frequency < 0.5 then EmotionalState.RELAXED
  else if 2 < analysis.fundamental_frequency then EmotionalState.EXCITED
  else if 0.7 < analysis.volume_level then EmotionalState.STRESSED
  else EmotionalState.CALM

/-- `AdaptiveAudioProcessor::analyzeRhythmicPattern`
(adaptive_audio_processor.cpp:319-330). -/
noncomputable def analyzeRhythmicPattern (analysis : AudioAnalysisResult) :
    EmotionalState :=
  if 120 < analysis.tempo then EmotionalState.EXCITED
  else if analysis.tempo < 80 then EmotionalState.RELAXED
  else if 0.3 < analysis.zero_crossing_rate then EmotionalState.FOCUSED
  else EmotionalState.CALM

/-- `AdaptiveAudioProcessor::analyzeSpectralCharacteristics`
(adaptive_audio_processor.cpp:332-343). -/
noncomputable def analyzeSpectralCharacteristics (analysis : AudioAnalysisResult) :
    EmotionalState :=
  if 2000 < analysis.spectral_centroid then EmotionalState.FOCUSED
  else if analysis.spectral_centroid < 500 then EmotionalState.RELAXED
  else if 4000 < analysis.spectral_rolloff then EmotionalState.EXCITED
  else EmotionalState.CALM

end AdaptiveAudioProcessor

/-- The keys of a `std::map<EmotionalState, int>` are iterated in enum order. -/
def emotionKeyOrder : List EmotionalState :=
  [EmotionalState.CALM, EmotionalState.EXCITED, EmotionalState.STRESSED,
   EmotionalState.FOCUSED, EmotionalState.RELAXED, EmotionalState.UNKNOWN]

/-- The vote tally of `detectEmotionalState`: each heuristic contributes one
vote for its emotion. -/
def voteCount (b r s e : EmotionalState) : ℕ :=
  (if e = b then 1 else 0) + (if e = r then 1 else 0) + (if e = s then 1 else 0)

/-- The voting step of `AdaptiveAudioProcessor::detectEmotionalState`
(adaptive_audio_processor.cpp:85-95): the `std::map` holds exactly the
voted emotions, iterated in enum-key order, and `std::max_element` returns
the first key attaining the maximal count. -/
def tallyVote (b r s : EmotionalState) : EmotionalState :=
  firstMaxBy (voteCount b r s) EmotionalState.UNKNOWN
    (emotionKeyOrder.filter (fun e => voteCount b r s e ≠ 0))

/-- Position of an emotion in the enum declaration order. -/
def emotionRank : EmotionalState → ℕ
  | EmotionalState.CALM => 0
  | EmotionalState.EXCITED => 1
  | EmotionalState.STRESSED => 2
  | EmotionalState.FOCUSED => 3
  | EmotionalState.RELAXED => 4
  | EmotionalState.UNKNOWN => 5

/-- The earlier of two emotions in enum declaration order. -/
def emotionMin (a b : EmotionalState) : EmotionalState :=
  if emotionRank a ≤ emotionRank b then a else b

namespace AdaptiveAudioProcessor

/-- `AdaptiveAudioProcessor::detectEmotionalState`
(adaptive_audio_processor.cpp:79-96). -/
noncomputable def detectEmotionalState (analysis : AudioAnalysisResult) :
    EmotionalState :=
  tallyVote (analyzeBreathingPattern analysis) (analyzeRhythmicPattern analysis)
    (analyzeSpectralCharacteristics analysis)

/-- `AdaptiveAudioProcessor::getAdaptationParameters`
(adaptive_audio_processor.cpp:98-106): preset lookup with the neutral
default for emotions without a preset. -/
noncomputable def getAdaptationParameters (p : AdaptiveAudioProcessor)
    (emotion : EmotionalState) : AdaptationParameters :=
  match p.emotion_presets emotion with
  | some params => params
  | none => defaultAdaptationParameters

/-- `AdaptiveAudioProcessor::smoothAdaptationParameters`
(adaptive_audio_processor.cpp:183-206): fieldwise exponential smoothing
against `parameter_history_.back()` with factor 0.3; a new instance with
empty history returns the new parameters unchanged. -/
noncomputable def smoothAdaptationParameters (p : AdaptiveAudioProcessor)
    (new_params : AdaptationParameters) : AdaptationParameters :=
  match p.parameter_history.getLast? with
  | none => new_params
  | some prev =>
    let smoothing_factor : ℝ := 0.3
    { volume_multiplier := (1 - smoothing_factor) * new_params.volume_multiplier +
        smoothing_factor * prev.volume_multiplier
      tempo_multiplier := (1 - smoothing_factor) * new_params.tempo_multiplier +
        smoothing_factor * prev.tempo_multiplier
      bass_boost := (1 - smoothing_factor) * new_params.bass_boost +
        smoothing_factor * prev.bass_boost
      treble_boost := (1 - smoothing_factor) * new_params.treble_boost +
        smoothing_factor * prev.treble_boost
      reverb_amount := (1 - smoothing_factor) * new_params.reverb_amount +
        smoothing_factor * prev.reverb_amount
      echo_delay := (1 - smoothing_factor) * new_params.echo_delay +
        smoothing_factor * prev.echo_delay }

/-- `AdaptiveAudioProcessor::updateHistory`
(adaptive_audio_processor.cpp:345-356). -/
noncomputable def updateHistory (p : AdaptiveAudioProcessor)
    (emotion : EmotionalState) (parameters : AdaptationParameters) :
    AdaptiveAudioProcessor :=
  { p with
    emotion_history := pushBounded p.history_size p.emotion_history emotion
    parameter_history := pushBounded p.history_size p.parameter_history parameters }

/-- `AdaptiveAudioProcessor::processAudio`
(adaptive_audio_processor.cpp:27-60).  `audioAnalyze` stands for the missing
`AudioAnalyzer::analyzeAudio` and `calcConfidence` for
`calculateConfidence`, which is called at line 52 but has no declaration or
definition anywhere in the repository sources. -/
noncomputable def processAudio (audioAnalyze : List ℝ → AudioAnalysisResult)
    (calcConfidence : AudioAnalysisResult → EmotionalState → ℝ)
    (p : AdaptiveAudioProcessor) (input_audio : List ℝ) :
    AdaptiveAudioProcessor × AdaptationResult :=
  if input_audio.isEmpty then (p, defaultAdaptationResult)
  else
    let analysis := audioAnalyze input_audio
    let detected_emotion := detectEmotionalState analysis
    let base_params := getAdaptationParameters p detected_emotion
    let applied_parameters := smoothAdaptationParameters p base_params
    let processed_audio := processAudioWithParameters p input_audio applied_parameters
    let confidence := calcConfidence analysis detected_emotion
    (updateHistory p detected_emotion applied_parameters,
      { processed_audio := processed_audio
        detected_emotion := detected_emotion
        applied_parameters := applied_parameters
        confidence := confidence })

/-- `AdaptiveAudioProcessor::getMostCommonEmotion`
(adaptive_audio_processor.cpp:358-372). -/
noncomputable def getMostCommonEmotion (p : AdaptiveAudioProcessor) :
    EmotionalState :=
  if p.emotion_history.isEmpty then EmotionalState.UNKNOWN
  else
    let count := fun e => (p.emotion_history.filter (fun x => x = e)).length
    firstMaxBy count EmotionalState.UNKNOWN
      (emotionKeyOrder.filter (fun e => count e ≠ 0))

end AdaptiveAudioProcessor

/-- Modelled from the spec: the body of `AudioAnalyzer::getFrequency` is not
under src/ (declaration only, anantasound_core.hpp:265).  Bin `i` of an
`fft_size`-point transform at `sample_rate` has frequency
`i * sample_rate / fft_size`, the repository's own bin-frequency convention
(audio_analyzer.cpp:167 uses the same formula). -/
noncomputable def getFrequency (fft_size sample_rate : ℕ) (bin : ℕ) : ℝ :=
  (bin : ℝ) * (sample_rate : ℝ) / (fft_size : ℝ)

/-- Modelled from the spec: the cumulative-sum scan of
`AudioAnalyzer::calculateSpectralRolloff`, whose body is not under src/
(declaration only, anantasound_core.hpp:288).  Starting from accumulated
magnitude `cum`, return the offset of the first bin at which the cumulative
magnitude reaches `target`; if the list is exhausted the offset runs past
the end, which the rolloff theorems rule out (`target` is at most the total
magnitude whenever the threshold is at most 1). -/
noncomputable def rolloffBin (target : ℝ) : ℝ → List ℝ → ℕ
  | _, [] => 0
  | cum, m :: ms =>
    if target ≤ cum + m then 0 else rolloffBin target (cum + m) ms + 1

/-- Modelled from the spec: `AudioAnalyzer::calculateSpectralRolloff`
(declared anantasound_core.hpp:288 with default `threshold = 0.85`), per
spec 4.3 "the frequency below which a configurable fraction (default 85%)
of total magnitude energy is concentrated, found by cumulative-sum scan
over ascending frequency bins". -/
noncomputable def calculateSpectralRolloff (fft_size sample_rate : ℕ)
    (magnitude_spectrum : List ℝ) (threshold : ℝ) : ℝ :=
  getFrequency fft_size sample_rate
    (rolloffBin (threshold * magnitude_spectrum.sum) 0 magnitude_spectrum)

/-- C1: the breathing state classifier is a pure function of
(rate, depth, regularity) and the six thresholds, applying the ordered rule
precedence of the spec; with the default thresholds, (15, 0.5, 0.9) is
NORMAL and rate 30 is RAPID for every depth and regularity. -/
theorem breathing_state_rule_precedence :
    (∀ (a : BreathingAnalyzer) (rate depth regularity : ℝ),
      (rate < a.normal_breathing_rate_min →
        (a.deep_breathing_threshold < depth →
          classifyBreathingState a rate depth regularity = BreathingState.DEEP) ∧
        (¬ a.deep_breathing_threshold < depth →
          classifyBreathingState a rate depth regularity = BreathingState.HOLDING)) ∧
      (¬ rate < a.normal_breathing_rate_min →
        a.rapid_breathing_threshold < rate →
        classifyBreathingState a rate depth regularity = BreathingState.RAPID) ∧
      (¬ rate < a.normal_breathing_rate_min →
        ¬ a.rapid_breathing_threshold < rate →
        a.normal_breathing_rate_max < rate →
        (depth < a.shallow_breathing_threshold →
          classifyBreathingState a rate depth regularity = BreathingState.SHALLOW) ∧
        (¬ depth < a.shallow_breathing_threshold →
          classifyBreathingState a rate depth regularity = BreathingState.RAPID)) ∧
      (¬ rate < a.normal_breathing_rate_min →
        ¬ a.rapid_breathing_threshold < rate →
        ¬ a.normal_breathing_rate_max < rate →
        (regularity < a.irregularity_threshold →
          classifyBreathingState a rate depth regularity = BreathingState.IRREGULAR) ∧
        (¬ regularity < a.irregularity_threshold →
          (a.deep_breathing_threshold < depth →
            classifyBreathingState a rate depth regularity = BreathingState.DEEP) ∧
          (¬ a.deep_breathing_threshold < depth →
            depth < a.shallow_breathing_threshold →
            classifyBreathingState a rate depth regularity = BreathingState.SHALLOW) ∧
          (¬ a.deep_breathing_threshold < depth →
            ¬ depth < a.shallow_breathing_threshold →
            classifyBreathingState a rate depth regularity = BreathingState.NORMAL)))) ∧
    classifyBreathingState (mkBreathingAnalyzer 1024 44100) 15 0.5 0.9 =
      BreathingState.NORMAL ∧
    (∀ depth regularity : ℝ,
      classifyBreathingState (mkBreathingAnalyzer 1024 44100) 30 depth regularity =
        BreathingState.RAPID) := by
  refine ⟨fun a rate depth regularity => ⟨?_, ?_, ?_, ?_⟩, ?_, fun depth regularity => ?_⟩
  · intro h1
    exact ⟨fun h2 => by simp [classifyBreathingState, h1, h2],
      fun h2 => by simp [classifyBreathingState, h1, h2]⟩
  · intro h1 h2
    simp [classifyBreathingState, h1, h2]
  · intro h1 h2 h3
    exact ⟨fun h4 => by simp [classifyBreathingState, h1, h2, h3, h4],
      fun h4 => by simp [classifyBreathingState, h1, h2, h3, h4]⟩
  · intro h1 h2 h3
    refine ⟨fun h4 => by simp [classifyBreathingState, h1, h2, h3, h4], fun h4 => ⟨?_, ?_, ?_⟩⟩
    · intro h5
      simp [classifyBreathingState, h1, h2, h3, h4, h5]
    · intro h5 h6
      simp [classifyBreathingState, h1, h2, h3, h4, h5, h6]
    · intro h5 h6
      simp [classifyBreathingState, h1, h2, h3, h4, h5, h6]
  · norm_num [classifyBreathingState, mkBreathingAnalyzer, initializeDefaultThresholds]
  · norm_num [classifyBreathingState, mkBreathingAnalyzer, initializeDefaultThresholds]

/-- Witness for C1: with the default thresholds, rate 5 (below the normal
minimum 8) and depth 0.8 (above the deep threshold 0.7) classify as DEEP. -/
theorem breathing_state_rule_precedence_witness :
    (5 : ℝ) < (mkBreathingAnalyzer 1024 44100).normal_breathing_rate_min ∧
    (mkBreathingAnalyzer 1024 44100).deep_breathing_threshold < (0.8 : ℝ) ∧
    classifyBreathingState (mkBreathingAnalyzer 1024 44100) 5 0.8 0.5 =
      BreathingState.DEEP :=
  ⟨by norm_num [mkBreathingAnalyzer, initializeDefaultThresholds],
   by norm_num [mkBreathingAnalyzer, initializeDefaultThresholds],
   ((breathing_state_rule_precedence.1 (mkBreathingAnalyzer 1024 44100) 5 0.8 0.5).1
      (by norm_num [mkBreathingAnalyzer, initializeDefaultThresholds])).1
      (by norm_num [mkBreathingAnalyzer, initializeDefaultThresholds])⟩

/-- C2: with at least 3 history entries and positive mean, the pattern
classifier buckets by the coefficient of variation
(population standard deviation over mean): below 0.1 REGULAR, above 0.3
IRREGULAR, otherwise by mean rate (below 8 RELAXED, above 20 STRESSED,
above 15 EXERCISE, else CYCLICAL); fewer than 3 entries give UNKNOWN. -/
theorem breathing_pattern_cov_classification (h : List ℝ) :
    (h.length < 3 → classifyBreathingPattern h = BreathingPattern.UNKNOWN) ∧
    (3 ≤ h.length → 0 < meanRate h →
      (Real.sqrt (rateVariance h) / meanRate h < 0.1 →
        classifyBreathingPattern h = BreathingPattern.REGULAR) ∧
      (¬ Real.sqrt (rateVariance h) / meanRate h < 0.1 →
        0.3 < Real.sqrt (rateVariance h) / meanRate h →
        classifyBreathingPattern h = BreathingPattern.IRREGULAR) ∧
      (¬ Real.sqrt (rateVariance h) / meanRate h < 0.1 →
        ¬ 0.3 < Real.sqrt (rateVariance h) / meanRate h →
        meanRate h < 8 →
        classifyBreathingPattern h = BreathingPattern.RELAXED) ∧
      (¬ Real.sqrt (rateVariance h) / meanRate h < 0.1 →
        ¬ 0.3 < Real.sqrt (rateVariance h) / meanRate h →
        20 < meanRate h →
        classifyBreathingPattern h = BreathingPattern.STRESSED) ∧
      (¬ Real.sqrt (rateVariance h) / meanRate h < 0.1 →
        ¬ 0.3 < Real.sqrt (rateVariance h) / meanRate h →
        ¬ 20 < meanRate h → 15 < meanRate h →
        classifyBreathingPattern h = BreathingPattern.EXERCISE) ∧
      (¬ Real.sqrt (rateVariance h) / meanRate h < 0.1 →
        ¬ 0.3 < Real.sqrt (rateVariance h) / meanRate h →
        ¬ meanRate h < 8 → ¬ 20 < meanRate h → ¬ 15 < meanRate h →
        classifyBreathingPattern h = BreathingPattern.CYCLICAL)) := by
  constructor
  · intro hlen
    simp [classifyBreathingPattern, hlen]
  · intro hlen _hm
    have hlen' : ¬ h.length < 3 := by omega
    refine ⟨?_, ?_, ?_, ?_, ?_, ?_⟩
    · intro h1
      simp [classifyBreathingPattern, hlen', h1]
    · intro h1 h2
      simp [classifyBreathingPattern, hlen', h1, h2]
    · intro h1 h2 h3
      simp [classifyBreathingPattern, hlen', h1, h2, h3]
    · intro h1 h2 h3
      have h4 : ¬ meanRate h < 8 := by linarith
      simp [classifyBreathingPattern, hlen', h1, h2, h3, h4]
    · intro h1 h2 h3 h4
      have h5 : ¬ meanRate h < 8 := by linarith
      simp [classifyBreathingPattern, hlen', h1, h2, h3, h4, h5]
    · intro h1 h2 h3 h4 h5
      simp [classifyBreathingPattern, hlen', h1, h2, h3, h4, h5]

/-- Witness for C2: the constant history [10, 10, 10] has mean 10, variance
0, hence coefficient of variation 0, and classifies as REGULAR. -/
theorem breathing_pattern_cov_classification_witness :
    3 ≤ ([10, 10, 10] : List ℝ).length ∧
    0 < meanRate ([10, 10, 10] : List ℝ) ∧
    Real.sqrt (rateVariance ([10, 10, 10] : List ℝ)) /
      meanRate ([10, 10, 10] : List ℝ) < 0.1 ∧
    classifyBreathingPattern ([10, 10, 10] : List ℝ) = BreathingPattern.REGULAR := by
  have hmean : meanRate ([10, 10, 10] : List ℝ) = 10 := by
    norm_num [meanRate]
  have hvar : rateVariance ([10, 10, 10] : List ℝ) = 0 := by
    simp [rateVariance, hmean]
  have hcov : Real.sqrt (rateVariance ([10, 10, 10] : List ℝ)) /
      meanRate ([10, 10, 10] : List ℝ) < 0.1 := by
    rw [hvar, Real.sqrt_zero, hmean]
    norm_num
  exact ⟨by norm_num, by rw [hmean]; norm_num, hcov,
    ((breathing_pattern_cov_classification ([10, 10, 10] : List ℝ)).2 (by norm_num)
      (by rw [hmean]; norm_num)).1 hcov⟩

/-- A push onto a history below capacity is a plain append. -/
theorem pushBounded_of_lt {α : Type} {cap : ℕ} {h : List α} (x : α)
    (hlt : h.length < cap) : pushBounded cap h x = h ++ [x] := by
  simp only [pushBounded, List.length_append, List.length_cons, List.length_nil]
  rw [if_neg (by omega)]

/-- A push onto a full (or over-full) history appends and evicts the head. -/
theorem pushBounded_of_ge {α : Type} {cap : ℕ} {h : List α} (x : α)
    (hge : cap ≤ h.length) : pushBounded cap h x = (h ++ [x]).drop 1 := by
  simp only [pushBounded, List.length_append, List.length_cons, List.length_nil]
  rw [if_pos (by omega)]

/-- The capacity invariant is preserved by every push. -/
theorem pushBounded_length_le {α : Type} (cap : ℕ) (h : List α) (x : α)
    (hle : h.length ≤ cap) : (pushBounded cap h x).length ≤ cap := by
  by_cases hlt : h.length < cap
  · rw [pushBounded_of_lt x hlt]
    simp
    omega
  · rw [pushBounded_of_ge x (by omega)]
    simp
    omega

/-- Folding pushes over a bounded history keeps exactly the last `cap`
entries: FIFO eviction. -/
theorem foldl_pushBounded {α : Type} (cap : ℕ) :
    ∀ (l h : List α), h.length ≤ cap →
      List.foldl (pushBounded cap) h l = (h ++ l).drop (h.length + l.length - cap) := by
  intro l
  induction l with
  | nil =>
    intro h hle
    simp [Nat.sub_eq_zero_of_le hle]
  | cons x xs ih =>
    intro h hle
    rw [List.foldl_cons, ih (pushBounded cap h x) (pushBounded_length_le cap h x hle)]
    by_cases hlt : h.length < cap
    · rw [pushBounded_of_lt x hlt]
      have hlen : (h ++ [x]).length = h.length + 1 := by simp
      rw [hlen, List.append_assoc, List.singleton_append]
      have harith : h.length + 1 + xs.length - cap = h.length + (x :: xs).length - cap := by
        simp only [List.length_cons]
        omega
      rw [harith]
    · have hge : cap ≤ h.length := by omega
      have heq : h.length = cap := by omega
      rw [pushBounded_of_ge x hge]
      have hlen : ((h ++ [x]).drop 1).length = cap := by
        simp only [List.length_drop, List.length_append, List.length_cons, List.length_nil]
        omega
      rw [hlen]
      have h1 : ((h ++ [x]) ++ xs).drop 1 = (h ++ [x]).drop 1 ++ xs :=
        List.drop_append_of_le_length
          (by simp only [List.length_append, List.length_cons, List.length_nil]; omega)
      rw [← h1, List.drop_drop, List.append_assoc, List.singleton_append]
      have hidx : 1 + (cap + xs.length - cap) = h.length + (x :: xs).length - cap := by
        simp only [List.length_cons]
        omega
      rw [hidx]

/-- The most recent push is always at the back of a bounded history with
positive capacity. -/
theorem pushBounded_getLast {α : Type} {cap : ℕ} (h : List α) (x : α)
    (hcap : 0 < cap) : (pushBounded cap h x).getLast? = some x := by
  by_cases hlt : h.length < cap
  · rw [pushBounded_of_lt x hlt]
    exact List.getLast?_concat h
  · rw [pushBounded_of_ge x (by omega)]
    cases h with
    | nil => simp at hlt; omega
    | cons y t =>
      have : ((y :: t) ++ [x]).drop 1 = t ++ [x] := by simp
      rw [this]
      exact List.getLast?_concat t

/-- Membership after a push comes from the old history or the new entry. -/
theorem mem_pushBounded {α : Type} {cap : ℕ} {h : List α} {x y : α}
    (hy : y ∈ pushBounded cap h x) : y ∈ h ∨ y = x := by
  have hy' : y ∈ h ++ [x] := by
    simp only [pushBounded] at hy
    by_cases hc : cap < (h ++ [x]).length
    · rw [if_pos hc] at hy
      exact List.drop_subset 1 (h ++ [x]) hy
    · rw [if_neg hc] at hy
      exact hy
  rcases List.mem_append.mp hy' with h1 | h1
  · exact Or.inl h1
  · simp at h1
    exact Or.inr h1

/-- C4: each bounded history never exceeds its capacity after a push, and
eviction is FIFO: from empty, capacity+1 pushes leave exactly the last
capacity entries, so the first push is gone and the last push is at the
back; the breathing analyzer's capacity defaults to 20 and the adaptive
processor's to 10, and both `updateHistory` methods are componentwise
bounded pushes. -/
theorem history_capacity_fifo :
    (∀ (α : Type) (cap : ℕ) (h : List α) (x : α),
      h.length ≤ cap → (pushBounded cap h x).length ≤ cap) ∧
    (∀ (α : Type) (cap : ℕ) (l : List α),
      l.length = cap + 1 → List.foldl (pushBounded cap) [] l = l.drop 1) ∧
    (∀ (α : Type) (cap : ℕ) (x : α) (xs : List α),
      (x :: xs).length = cap + 1 → x ∉ xs →
      x ∉ List.foldl (pushBounded cap) [] (x :: xs)) ∧
    (∀ (α : Type) (cap : ℕ) (l : List α),
      l.length = cap + 1 → 0 < cap →
      (List.foldl (pushBounded cap) [] l).getLast? = l.getLast?) ∧
    (mkBreathingAnalyzer 1024 44100).history_size = 20 ∧
    (mkAdaptiveAudioProcessor 1024 44100).history_size = 10 ∧
    (∀ (a : BreathingAnalyzer) (r : BreathingAnalysisResult),
      (BreathingAnalyzer.updateHistory a r).analysis_history =
        pushBounded a.history_size a.analysis_history r ∧
      (BreathingAnalyzer.updateHistory a r).breathing_rate_history =
        pushBounded a.history_size a.breathing_rate_history r.breathing_rate ∧
      (BreathingAnalyzer.updateHistory a r).amplitude_history =
        pushBounded a.history_size a.amplitude_history r.breathing_depth) ∧
    (∀ (p : AdaptiveAudioProcessor) (e : EmotionalState) (q : AdaptationParameters),
      (AdaptiveAudioProcessor.updateHistory p e q).emotion_history =
        pushBounded p.history_size p.emotion_history e ∧
      (AdaptiveAudioProcessor.updateHistory p e q).parameter_history =
        pushBounded p.history_size p.parameter_history q) := by
  have hfold : ∀ (α : Type) (cap : ℕ) (l : List α),
      l.length = cap + 1 → List.foldl (pushBounded cap) [] l = l.drop 1 := by
    intro α cap l hlen
    have := foldl_pushBounded cap l [] (by simp)
    simpa [hlen] using this
  refine ⟨fun α => pushBounded_length_le, hfold, ?_, ?_, rfl, rfl,
    fun a r => ⟨rfl, rfl, rfl⟩, fun p e q => ⟨rfl, rfl⟩⟩
  · intro α cap x xs hlen hnotmem
    rw [hfold α cap (x :: xs) hlen]
    simpa using hnotmem
  · intro α cap l hlen hcap
    rw [hfold α cap l hlen]
    cases l with
    | nil => simp at hlen
    | cons a t =>
      cases t with
      | nil => simp at hlen; omega
      | cons b u =>
        simp only [List.drop_succ_cons, List.drop_zero]
        exact (List.getLast?_append_of_ne_nil [a] (by simp)).symm

/-- Witness for C4: capacity 2, pushes 0, 1, 2 from an empty history leave
[1, 2]; the first push 0 is absent and the last push 2 is at the back. -/
theorem history_capacity_fifo_witness :
    (([0, 1] : List ℕ).length ≤ 2 ∧ (pushBounded 2 [0, 1] 2).length ≤ 2) ∧
    (([0, 1, 2] : List ℕ).length = 2 + 1 ∧
      List.foldl (pushBounded 2) [] [0, 1, 2] = [1, 2]) ∧
    ((0 : ℕ) ∉ ([1, 2] : List ℕ) ∧ 0 ∉ List.foldl (pushBounded 2) [] [0, 1, 2]) ∧
    (List.foldl (pushBounded 2) [] ([0, 1, 2] : List ℕ)).getLast? = some 2 := by
  refine ⟨⟨by decide, history_capacity_fifo.1 ℕ 2 [0, 1] 2 (by decide)⟩,
    ⟨by decide, ?_⟩, ⟨by decide, ?_⟩, ?_⟩
  · have := history_capacity_fifo.2.1 ℕ 2 [0, 1, 2] (by decide)
    simpa using this
  · exact history_capacity_fifo.2.2.1 ℕ 2 0 [1, 2] (by decide) (by decide)
  · have := history_capacity_fifo.2.2.2.1 ℕ 2 [0, 1, 2] (by decide) (by decide)
    simpa using this

/-- The overlap loop visits exactly the frame starts
`start, start + hop, start + 2·hop, …` while a full window fits. -/
theorem overlapStarts_eq (len window hop : ℕ) (hh : 0 < hop) :
    ∀ (n start : ℕ), len + 1 - start ≤ n → start + window ≤ len →
      overlapStarts len window hop start =
        (List.range ((len - window - start) / hop + 1)).map (fun k => start + k * hop) := by
  intro n
  induction n with
  | zero =>
    intro start h1 h2
    exact absurd h2 (by omega)
  | succ n ih =>
    intro start h1 h2
    rw [overlapStarts, dif_pos ⟨hh, h2⟩]
    by_cases h3 : start + hop + window ≤ len
    · rw [ih (start + hop) (by omega) h3]
      have hsub : len - window - (start + hop) = len - window - start - hop := by omega
      rw [hsub]
      have hd : (len - window - start) / hop = (len - window - start - hop) / hop + 1 := by
        have hsub2 : len - window - start = (len - window - start - hop) + hop := by omega
        conv_lhs => rw [hsub2]
        exact Nat.add_div_right _ hh
      rw [hd]
      conv_rhs => rw [List.range_succ_eq_map]
      rw [List.map_cons, List.map_map]
      refine List.cons_eq_cons.mpr ⟨?_, ?_⟩
      · show start = start + 0 * hop
        ring
      · apply List.map_congr_left
        intro k _
        show start + hop + k * hop = start + (k + 1) * hop
        ring
    · rw [overlapStarts, dif_neg ?hng]
      case hng => omega
      have hz : (len - window - start) / hop = 0 := Nat.div_eq_of_lt (by omega)
      rw [hz]
      show [start] = List.map (fun k => start + k * hop) [0]
      simp

/-- Each frame in the overlap run contributes exactly one result. -/
theorem runFrames_length (audioAnalyze : List ℝ → AudioAnalysisResult) :
    ∀ (a : BreathingAnalyzer) (ws : List (List ℝ)),
      (BreathingAnalyzer.runFrames audioAnalyze a ws).2.length = ws.length := by
  intro a ws
  induction ws generalizing a with
  | nil => rfl
  | cons w ws ih => simp [BreathingAnalyzer.runFrames, ih]

/-- C3: a buffer shorter than one analysis window yields exactly one result,
the analysis of the whole buffer; a buffer at least one window long, with
hop = window/4 (window at least 4 so that the hop is positive), yields
exactly floor((len - window)/hop) + 1 results, one per frame start
0, hop, 2·hop, … in ascending order of frame start. -/
theorem analyze_with_overlap_frame_count
    (audioAnalyze : List ℝ → AudioAnalysisResult) (a : BreathingAnalyzer)
    (buf : List ℝ) :
    (buf.length < a.analysis_window_size →
      BreathingAnalyzer.analyzeBreathingWithOverlap audioAnalyze a buf =
        ((BreathingAnalyzer.analyzeBreathing audioAnalyze a buf).1,
         [(BreathingAnalyzer.analyzeBreathing audioAnalyze a buf).2])) ∧
    (a.analysis_window_size ≤ buf.length → 4 ≤ a.analysis_window_size →
      BreathingAnalyzer.analyzeBreathingWithOverlap audioAnalyze a buf =
        BreathingAnalyzer.runFrames audioAnalyze a
          ((List.range ((buf.length - a.analysis_window_size) /
              (a.analysis_window_size / 4) + 1)).map
            (fun k => (buf.drop (k * (a.analysis_window_size / 4))).take
              a.analysis_window_size)) ∧
      (BreathingAnalyzer.analyzeBreathingWithOverlap audioAnalyze a buf).2.length =
        (buf.length - a.analysis_window_size) / (a.analysis_window_size / 4) + 1) := by
  constructor
  · intro hlt
    simp [BreathingAnalyzer.analyzeBreathingWithOverlap, hlt]
  · intro hle h4
    have hnlt : ¬ buf.length < a.analysis_window_size := by omega
    have hh : 0 < a.analysis_window_size / 4 := by
      omega
    have hstarts := overlapStarts_eq buf.length a.analysis_window_size
      (a.analysis_window_size / 4) hh (buf.length + 1) 0 (by omega) (by omega)
    have hmain : BreathingAnalyzer.analyzeBreathingWithOverlap audioAnalyze a buf =
        BreathingAnalyzer.runFrames audioAnalyze a
          ((List.range ((buf.length - a.analysis_window_size) /
              (a.analysis_window_size / 4) + 1)).map
            (fun k => (buf.drop (k * (a.analysis_window_size / 4))).take
              a.analysis_window_size)) := by
      simp only [BreathingAnalyzer.analyzeBreathingWithOverlap]
      rw [if_neg hnlt, hstarts, List.map_map]
      simp only [Nat.zero_add, Nat.sub_zero]
      apply congrArg
      apply List.map_congr_left
      intro k _
      simp [Function.comp]
    refine ⟨hmain, ?_⟩
    rw [hmain, runFrames_length]
    simp

/-- Witness for C3: window size 8 (hop 2) over a 12-sample buffer gives
floor((12 - 8)/2) + 1 = 3 results. -/
theorem analyze_with_overlap_frame_count_witness :
    (mkBreathingAnalyzer 8 44100).analysis_window_size ≤
      (List.replicate 12 (0 : ℝ)).length ∧
    4 ≤ (mkBreathingAnalyzer 8 44100).analysis_window_size ∧
    (BreathingAnalyzer.analyzeBreathingWithOverlap (fun _ => zeroAudioAnalysis)
      (mkBreathingAnalyzer 8 44100) (List.replicate 12 0)).2.length = 3 := by
  have h := (analyze_with_overlap_frame_count (fun _ => zeroAudioAnalysis)
    (mkBreathingAnalyzer 8 44100) (List.replicate 12 0)).2
    (by simp [mkBreathingAnalyzer, initializeDefaultThresholds])
    (by simp [mkBreathingAnalyzer, initializeDefaultThresholds])
  refine ⟨by simp [mkBreathingAnalyzer, initializeDefaultThresholds],
    by simp [mkBreathingAnalyzer, initializeDefaultThresholds], ?_⟩
  have h2 := h.2
  simpa [mkBreathingAnalyzer, initializeDefaultThresholds] using h2

/-- C5: smoothing with an empty parameter history returns the new preset
unchanged; with a non-empty history each field is blended as
(1 - 0.3)·new + 0.3·previous against the last stored parameters; a category
without a registered preset (UNKNOWN on a fresh processor) maps to the
neutral default; and across two consecutive non-empty processAudio calls
the second result's applied parameters are the blend of the looked-up
preset with the first call's applied (smoothed) parameters. -/
theorem parameter_smoothing (audioAnalyze : List ℝ → AudioAnalysisResult)
    (calcConfidence : AudioAnalysisResult → EmotionalState → ℝ)
    (p : AdaptiveAudioProcessor) :
    (∀ new_params, p.parameter_history = [] →
      AdaptiveAudioProcessor.smoothAdaptationParameters p new_params = new_params) ∧
    (∀ new_params prev, p.parameter_history.getLast? = some prev →
      AdaptiveAudioProcessor.smoothAdaptationParameters p new_params =
        { volume_multiplier := (1 - 0.3) * new_params.volume_multiplier +
            0.3 * prev.volume_multiplier
          tempo_multiplier := (1 - 0.3) * new_params.tempo_multiplier +
            0.3 * prev.tempo_multiplier
          bass_boost := (1 - 0.3) * new_params.bass_boost + 0.3 * prev.bass_boost
          treble_boost := (1 - 0.3) * new_params.treble_boost + 0.3 * prev.treble_boost
          reverb_amount := (1 - 0.3) * new_params.reverb_amount + 0.3 * prev.reverb_amount
          echo_delay := (1 - 0.3) * new_params.echo_delay + 0.3 * prev.echo_delay }) ∧
    (∀ fft sr, AdaptiveAudioProcessor.getAdaptationParameters
      (mkAdaptiveAudioProcessor fft sr) EmotionalState.UNKNOWN =
        defaultAdaptationParameters) ∧
    (∀ in1 in2, in1 ≠ [] → in2 ≠ [] → 0 < p.history_size →
      (AdaptiveAudioProcessor.processAudio audioAnalyze calcConfidence
        (AdaptiveAudioProcessor.processAudio audioAnalyze calcConfidence p in1).1
        in2).2.applied_parameters =
      (let prev := (AdaptiveAudioProcessor.processAudio audioAnalyze calcConfidence
          p in1).2.applied_parameters
       let fresh := AdaptiveAudioProcessor.getAdaptationParameters p
          (AdaptiveAudioProcessor.detectEmotionalState (audioAnalyze in2))
       { volume_multiplier := (1 - 0.3) * fresh.volume_multiplier +
           0.3 * prev.volume_multiplier
         tempo_multiplier := (1 - 0.3) * fresh.tempo_multiplier +
           0.3 * prev.tempo_multiplier
         bass_boost := (1 - 0.3) * fresh.bass_boost + 0.3 * prev.bass_boost
         treble_boost := (1 - 0.3) * fresh.treble_boost + 0.3 * prev.treble_boost
         reverb_amount := (1 - 0.3) * fresh.reverb_amount + 0.3 * prev.reverb_amount
         echo_delay := (1 - 0.3) * fresh.echo_delay + 0.3 * prev.echo_delay })) := by
  refine ⟨?_, ?_, ?_, ?_⟩
  · intro new_params hemp
    simp [AdaptiveAudioProcessor.smoothAdaptationParameters, hemp]
  · intro new_params prev hlast
    simp [AdaptiveAudioProcessor.smoothAdaptationParameters, hlast]
  · intro fft sr
    simp [AdaptiveAudioProcessor.getAdaptationParameters, mkAdaptiveAudioProcessor,
      initializeEmotionPresets]
  · intro in1 in2 h1 h2 hcap
    have h1' : ¬ in1.isEmpty := by simpa [List.isEmpty_iff] using h1
    have h2' : ¬ in2.isEmpty := by simpa [List.isEmpty_iff] using h2
    set e1 := AdaptiveAudioProcessor.detectEmotionalState (audioAnalyze in1) with he1
    set q1 := AdaptiveAudioProcessor.smoothAdaptationParameters p
      (AdaptiveAudioProcessor.getAdaptationParameters p e1) with hq1
    have hstep1 : (AdaptiveAudioProcessor.processAudio audioAnalyze calcConfidence
        p in1).1 = AdaptiveAudioProcessor.updateHistory p e1 q1 := by
      simp [AdaptiveAudioProcessor.processAudio, h1']
    have happ1 : (AdaptiveAudioProcessor.processAudio audioAnalyze calcConfidence
        p in1).2.applied_parameters = q1 := by
      simp [AdaptiveAudioProcessor.processAudio, h1']
    have hlast : (AdaptiveAudioProcessor.updateHistory p e1 q1).parameter_history.getLast? =
        some q1 := by
      simp only [AdaptiveAudioProcessor.updateHistory]
      exact pushBounded_getLast _ _ hcap
    have hpres : (AdaptiveAudioProcessor.updateHistory p e1 q1).emotion_presets =
        p.emotion_presets := rfl
    rw [hstep1]
    have hgp : AdaptiveAudioProcessor.getAdaptationParameters
        (AdaptiveAudioProcessor.updateHistory p e1 q1)
        (AdaptiveAudioProcessor.detectEmotionalState (audioAnalyze in2)) =
        AdaptiveAudioProcessor.getAdaptationParameters p
          (AdaptiveAudioProcessor.detectEmotionalState (audioAnalyze in2)) := rfl
    have hL : (AdaptiveAudioProcessor.processAudio audioAnalyze calcConfidence
        (AdaptiveAudioProcessor.updateHistory p e1 q1) in2).2.applied_parameters =
        AdaptiveAudioProcessor.smoothAdaptationParameters
          (AdaptiveAudioProcessor.updateHistory p e1 q1)
          (AdaptiveAudioProcessor.getAdaptationParameters p
            (AdaptiveAudioProcessor.detectEmotionalState (audioAnalyze in2))) := by
      simp [AdaptiveAudioProcessor.processAudio, h2', hgp]
    rw [hL, happ1]
    simp [AdaptiveAudioProcessor.smoothAdaptationParameters, hlast]

/-- Witness for C5: two consecutive one-sample calls on a fresh processor;
the second call's applied parameters blend the looked-up preset with the
first call's applied parameters. -/
theorem parameter_smoothing_witness :
    (([1] : List ℝ) ≠ []) ∧
    0 < (mkAdaptiveAudioProcessor 1024 44100).history_size ∧
    (AdaptiveAudioProcessor.processAudio (fun _ => zeroAudioAnalysis) (fun _ _ => 0)
      (AdaptiveAudioProcessor.processAudio (fun _ => zeroAudioAnalysis) (fun _ _ => 0)
        (mkAdaptiveAudioProcessor 1024 44100) [1]).1 [1]).2.applied_parameters =
    (let prev := (AdaptiveAudioProcessor.processAudio (fun _ => zeroAudioAnalysis)
        (fun _ _ => 0) (mkAdaptiveAudioProcessor 1024 44100) [1]).2.applied_parameters
     let fresh := AdaptiveAudioProcessor.getAdaptationParameters
        (mkAdaptiveAudioProcessor 1024 44100)
        (AdaptiveAudioProcessor.detectEmotionalState zeroAudioAnalysis)
     { volume_multiplier := (1 - 0.3) * fresh.volume_multiplier +
         0.3 * prev.volume_multiplier
       tempo_multiplier := (1 - 0.3) * fresh.tempo_multiplier +
         0.3 * prev.tempo_multiplier
       bass_boost := (1 - 0.3) * fresh.bass_boost + 0.3 * prev.bass_boost
       treble_boost := (1 - 0.3) * fresh.treble_boost + 0.3 * prev.treble_boost
       reverb_amount := (1 - 0.3) * fresh.reverb_amount + 0.3 * prev.reverb_amount
       echo_delay := (1 - 0.3) * fresh.echo_delay + 0.3 * prev.echo_delay }) := by
  refine ⟨by simp, by norm_num [mkAdaptiveAudioProcessor], ?_⟩
  exact (parameter_smoothing (fun _ => zeroAudioAnalysis) (fun _ _ => 0)
    (mkAdaptiveAudioProcessor 1024 44100)).2.2.2 [1] [1] (by simp) (by simp)
    (by norm_num [mkAdaptiveAudioProcessor])

/-- C6 (amended): the detected emotional state is the majority vote of the
three heuristics — any category with at least 2 of the 3 votes wins — but a
three-way tie is resolved to the vote earliest in the enum declaration
order CALM, EXCITED, STRESSED, FOCUSED, RELAXED (the `std::map` key
order), not to the first-registered heuristic's vote. -/
theorem emotion_majority_vote_amended :
    (∀ b r s : EmotionalState,
      tallyVote b r s =
        if b = r ∨ b = s then b
        else if r = s then r
        else emotionMin b (emotionMin r s)) ∧
    (∀ analysis : AudioAnalysisResult,
      AdaptiveAudioProcessor.detectEmotionalState analysis =
        tallyVote (AdaptiveAudioProcessor.analyzeBreathingPattern analysis)
          (AdaptiveAudioProcessor.analyzeRhythmicPattern analysis)
          (AdaptiveAudioProcessor.analyzeSpectralCharacteristics analysis)) :=
  ⟨by decide, fun _ => rfl⟩

/-- Counterexample for C6 as stated: on `tieAnalysis` the heuristics vote
EXCITED (breathing), FOCUSED (rhythmic) and CALM (spectral) — a three-way
tie — and the detector returns CALM, not the first-registered (breathing)
heuristic's vote EXCITED. -/
theorem emotion_majority_tie_counterexample :
    AdaptiveAudioProcessor.analyzeBreathingPattern tieAnalysis =
      EmotionalState.EXCITED ∧
    AdaptiveAudioProcessor.analyzeRhythmicPattern tieAnalysis =
      EmotionalState.FOCUSED ∧
    AdaptiveAudioProcessor.analyzeSpectralCharacteristics tieAnalysis =
      EmotionalState.CALM ∧
    AdaptiveAudioProcessor.detectEmotionalState tieAnalysis = EmotionalState.CALM ∧
    AdaptiveAudioProcessor.detectEmotionalState tieAnalysis ≠
      AdaptiveAudioProcessor.analyzeBreathingPattern tieAnalysis := by
  have hb : AdaptiveAudioProcessor.analyzeBreathingPattern tieAnalysis =
      EmotionalState.EXCITED := by
    norm_num [AdaptiveAudioProcessor.analyzeBreathingPattern, tieAnalysis]
  have hr : AdaptiveAudioProcessor.analyzeRhythmicPattern tieAnalysis =
      EmotionalState.FOCUSED := by
    norm_num [AdaptiveAudioProcessor.analyzeRhythmicPattern, tieAnalysis]
  have hs : AdaptiveAudioProcessor.analyzeSpectralCharacteristics tieAnalysis =
      EmotionalState.CALM := by
    norm_num [AdaptiveAudioProcessor.analyzeSpectralCharacteristics, tieAnalysis]
  have hd : AdaptiveAudioProcessor.detectEmotionalState tieAnalysis =
      EmotionalState.CALM := by
    rw [AdaptiveAudioProcessor.detectEmotionalState, hb, hr, hs]
    decide
  exact ⟨hb, hr, hs, hd, by rw [hd, hb]; decide⟩

/-- The cumulative-sum scan stops at the first bin whose running total
reaches the target, provided the total does reach it. -/
theorem rolloffBin_spec (target : ℝ) :
    ∀ (l : List ℝ) (cum : ℝ), l ≠ [] → target ≤ cum + l.sum →
      rolloffBin target cum l < l.length ∧
      target ≤ cum + (l.take (rolloffBin target cum l + 1)).sum ∧
      (∀ j, j < rolloffBin target cum l → cum + (l.take (j + 1)).sum < target) := by
  intro l
  induction l with
  | nil =>
    intro cum hne _
    exact absurd rfl hne
  | cons m ms ih =>
    intro cum _ hsum
    by_cases hc : target ≤ cum + m
    · refine ⟨?_, ?_, ?_⟩
      · simp [rolloffBin, hc]
      · simp [rolloffBin, hc]
      · intro j hj
        simp [rolloffBin, hc] at hj
    · have hms : ms ≠ [] := by
        intro hnil
        rw [hnil] at hsum
        simp at hsum
        exact hc (by linarith)
      have hsum' : target ≤ (cum + m) + ms.sum := by
        rw [List.sum_cons] at hsum
        linarith
      obtain ⟨ih1, ih2, ih3⟩ := ih (cum + m) hms hsum'
      have hstep : rolloffBin target cum (m :: ms) =
          rolloffBin target (cum + m) ms + 1 := by
        simp [rolloffBin, hc]
      refine ⟨?_, ?_, ?_⟩
      · rw [hstep]
        simp only [List.length_cons]
        omega
      · rw [hstep, List.take_succ_cons, List.sum_cons]
        calc target ≤ (cum + m) + (ms.take (rolloffBin target (cum + m) ms + 1)).sum := ih2
        _ = cum + (m + (ms.take (rolloffBin target (cum + m) ms + 1)).sum) := by ring
      · intro j hj
        rw [hstep] at hj
        match j with
        | 0 =>
          simp only [List.take_succ_cons, List.take_zero, List.sum_cons, List.sum_nil]
          have := lt_of_not_le hc
          linarith
        | Nat.succ j' =>
          have hj' : j' < rolloffBin target (cum + m) ms := by omega
          have := ih3 j' hj'
          rw [List.take_succ_cons, List.sum_cons]
          linarith

/-- C7: the modelled spectral rolloff at the default 85% threshold is the
frequency of the first bin (in ascending frequency order) at which the
cumulative magnitude reaches 85% of the total magnitude, and for a
spectrum of at most fft/2 + 1 bins the returned frequency lies in
[0, sample_rate/2]. -/
theorem spectral_rolloff_cumulative (mags : List ℝ) (N sr : ℕ)
    (hne : mags ≠ []) (hpos : ∀ m ∈ mags, 0 ≤ m) (hN : 0 < N)
    (hlen : mags.length ≤ N / 2 + 1) :
    rolloffBin (0.85 * mags.sum) 0 mags < mags.length ∧
    0.85 * mags.sum ≤ (mags.take (rolloffBin (0.85 * mags.sum) 0 mags + 1)).sum ∧
    (∀ j, j < rolloffBin (0.85 * mags.sum) 0 mags →
      (mags.take (j + 1)).sum < 0.85 * mags.sum) ∧
    calculateSpectralRolloff N sr mags 0.85 =
      getFrequency N sr (rolloffBin (0.85 * mags.sum) 0 mags) ∧
    0 ≤ calculateSpectralRolloff N sr mags 0.85 ∧
    calculateSpectralRolloff N sr mags 0.85 ≤ (sr : ℝ) / 2 := by
  have hsum0 : 0 ≤ mags.sum := List.sum_nonneg hpos
  have htarget : (0.85 : ℝ) * mags.sum ≤ 0 + mags.sum := by linarith
  obtain ⟨hblt, hble, hbmin⟩ := rolloffBin_spec (0.85 * mags.sum) mags 0 hne htarget
  refine ⟨hblt, by simpa using hble, fun j hj => by simpa using hbmin j hj, rfl, ?_, ?_⟩
  · unfold calculateSpectralRolloff getFrequency
    positivity
  · unfold calculateSpectralRolloff getFrequency
    set i := rolloffBin (0.85 * mags.sum) 0 mags with hi
    have hiN : i ≤ N / 2 := by omega
    have hle1 : (i : ℝ) ≤ ((N / 2 : ℕ) : ℝ) := by exact_mod_cast hiN
    have hle2 : ((N / 2 : ℕ) : ℝ) ≤ (N : ℝ) / 2 := Nat.cast_div_le
    have hNpos : (0 : ℝ) < (N : ℝ) := by exact_mod_cast hN
    have hsr : (0 : ℝ) ≤ (sr : ℝ) := by positivity
    have hN0 : (N : ℝ) ≠ 0 := ne_of_gt hNpos
    calc (i : ℝ) * (sr : ℝ) / (N : ℝ) ≤ ((N : ℝ) / 2) * (sr : ℝ) / (N : ℝ) := by
          gcongr
          exact hle1.trans hle2
        _ = (sr : ℝ) / 2 := by
          field_simp
          ring

/-- Witness for C7: four unit-magnitude bins with fft size 8 at sample rate
100; the scan stops at bin 3 (cumulative 4 reaching 3.4) and the rolloff
3 * 100 / 8 = 37.5 lies in [0, 50]. -/
theorem spectral_rolloff_cumulative_witness :
    (([1, 1, 1, 1] : List ℝ) ≠ []) ∧
    (∀ m ∈ ([1, 1, 1, 1] : List ℝ), 0 ≤ m) ∧
    (0 < 8) ∧
    (([1, 1, 1, 1] : List ℝ).length ≤ 8 / 2 + 1) ∧
    0 ≤ calculateSpectralRolloff 8 100 [1, 1, 1, 1] 0.85 ∧
    calculateSpectralRolloff 8 100 [1, 1, 1, 1] 0.85 ≤ (100 : ℝ) / 2 := by
  have h := spectral_rolloff_cumulative [1, 1, 1, 1] 8 100 (by simp)
    (by intro m hm; simp at hm; rw [hm]; norm_num) (by norm_num) (by norm_num)
  exact ⟨by simp, by intro m hm; simp at hm; rw [hm]; norm_num, by norm_num,
    by norm_num, h.2.2.2.2.1, by exact_mod_cast h.2.2.2.2.2⟩

/-- C8: on an empty input buffer both analyzers return the default neutral
result (UNKNOWN state, pattern and emotion, zero levels and confidence)
and their stored state — histories, thresholds, presets — is completely
unchanged. -/
theorem empty_buffer_neutral_result :
    (∀ (audioAnalyze : List ℝ → AudioAnalysisResult) (a : BreathingAnalyzer),
      BreathingAnalyzer.analyzeBreathing audioAnalyze a [] =
        (a, defaultBreathingAnalysisResult)) ∧
    defaultBreathingAnalysisResult.current_state = BreathingState.UNKNOWN ∧
    defaultBreathingAnalysisResult.pattern = BreathingPattern.UNKNOWN ∧
    defaultBreathingAnalysisResult.breathing_rate = 0 ∧
    defaultBreathingAnalysisResult.breathing_depth = 0 ∧
    defaultBreathingAnalysisResult.breathing_regularity = 0 ∧
    defaultBreathingAnalysisResult.stress_level = 0 ∧
    defaultBreathingAnalysisResult.relaxation_level = 0 ∧
    (∀ (audioAnalyze : List ℝ → AudioAnalysisResult)
      (calcConfidence : AudioAnalysisResult → EmotionalState → ℝ)
      (p : AdaptiveAudioProcessor),
      AdaptiveAudioProcessor.processAudio audioAnalyze calcConfidence p [] =
        (p, defaultAdaptationResult)) ∧
    defaultAdaptationResult.detected_emotion = EmotionalState.UNKNOWN ∧
    defaultAdaptationResult.confidence = 0 := by
  refine ⟨fun f a => ?_, rfl, rfl, rfl, rfl, rfl, rfl, rfl, fun f c p => ?_, rfl, rfl⟩
  · simp [BreathingAnalyzer.analyzeBreathing]
  · simp [AdaptiveAudioProcessor.processAudio]

/-- C9: every read-only query on an analyzer state with empty histories has
a defined neutral value — UNKNOWN state/pattern/emotion and 0 levels —
except `getStatistics`, which returns its default-initialized local
aggregate unchanged: in C++ that aggregate's fields are uninitialized, so
the empty-history statistics are indeterminate, not a neutral aggregate
(modelled by the `init` parameter below being returned as-is). -/
theorem empty_history_query_defaults :
    (∀ (ws sr cap : ℕ) (t1 t2 t3 t4 t5 t6 : ℝ),
      BreathingAnalyzer.getCurrentBreathingState
        ⟨ws, sr, [], [], [], cap, t1, t2, t3, t4, t5, t6⟩ = BreathingState.UNKNOWN ∧
      BreathingAnalyzer.getBreathingPattern
        ⟨ws, sr, [], [], [], cap, t1, t2, t3, t4, t5, t6⟩ = BreathingPattern.UNKNOWN ∧
      BreathingAnalyzer.getAverageBreathingRate
        ⟨ws, sr, [], [], [], cap, t1, t2, t3, t4, t5, t6⟩ = 0 ∧
      BreathingAnalyzer.getStressLevel
        ⟨ws, sr, [], [], [], cap, t1, t2, t3, t4, t5, t6⟩ = 0 ∧
      BreathingAnalyzer.getRelaxationLevel
        ⟨ws, sr, [], [], [], cap, t1, t2, t3, t4, t5, t6⟩ = 0 ∧
      (∀ init : BreathingStatistics,
        BreathingAnalyzer.getStatistics init
          ⟨ws, sr, [], [], [], cap, t1, t2, t3, t4, t5, t6⟩ = init)) ∧
    (∀ (presets : EmotionalState → Option AdaptationParameters) (ws sr : ℕ)
      (sens : ℝ) (cap : ℕ),
      AdaptiveAudioProcessor.getMostCommonEmotion
        ⟨presets, ws, sr, sens, [], [], cap⟩ = EmotionalState.UNKNOWN) := by
  constructor
  · intro ws sr cap t1 t2 t3 t4 t5 t6
    exact ⟨rfl, rfl, rfl, rfl, rfl, fun init => rfl⟩
  · intro presets ws sr sens cap
    rfl

/-- C10: the breathing rate is 60 times the fundamental frequency clamped to
[4, 60] before classification and before being pushed to history, so for a
non-empty buffer the returned rate lies in [4, 60], the stored rate
history stays inside [4, 60], and the mean of a non-empty in-range history
is strictly positive (no division by zero in the coefficient of
variation). -/
theorem breathing_rate_clamped
    (audioAnalyze : List ℝ → AudioAnalysisResult) (a : BreathingAnalyzer)
    (buf : List ℝ) :
    (∀ analysis : AudioAnalysisResult,
      4 ≤ calculateBreathingRate analysis ∧ calculateBreathingRate analysis ≤ 60) ∧
    (buf ≠ [] →
      4 ≤ (BreathingAnalyzer.analyzeBreathing audioAnalyze a buf).2.breathing_rate ∧
      (BreathingAnalyzer.analyzeBreathing audioAnalyze a buf).2.breathing_rate ≤ 60) ∧
    ((∀ x ∈ a.breathing_rate_history, 4 ≤ x ∧ x ≤ 60) →
      ∀ x ∈ (BreathingAnalyzer.analyzeBreathing audioAnalyze a
          buf).1.breathing_rate_history, 4 ≤ x ∧ x ≤ 60) ∧
    (∀ h : List ℝ, h ≠ [] → (∀ x ∈ h, 4 ≤ x ∧ x ≤ 60) → 0 < meanRate h) := by
  have hclamp : ∀ analysis : AudioAnalysisResult,
      4 ≤ calculateBreathingRate analysis ∧ calculateBreathingRate analysis ≤ 60 := by
    intro analysis
    unfold calculateBreathingRate
    exact ⟨le_max_left 4 _, max_le (by norm_num) (min_le_left 60 _)⟩
  refine ⟨hclamp, ?_, ?_, ?_⟩
  · intro hne
    have hne' : ¬ buf.isEmpty := by simpa [List.isEmpty_iff] using hne
    have hres : (BreathingAnalyzer.analyzeBreathing audioAnalyze a buf).2.breathing_rate =
        calculateBreathingRate (audioAnalyze (filterBreathingFrequencies buf)) := by
      simp [BreathingAnalyzer.analyzeBreathing, hne']
    rw [hres]
    exact hclamp _
  · intro hinv x hx
    by_cases hb : buf.isEmpty
    · have hsame : (BreathingAnalyzer.analyzeBreathing audioAnalyze a buf).1 = a := by
        simp [BreathingAnalyzer.analyzeBreathing, hb]
      rw [hsame] at hx
      exact hinv x hx
    · have hhist : (BreathingAnalyzer.analyzeBreathing audioAnalyze a
          buf).1.breathing_rate_history =
          pushBounded a.history_size a.breathing_rate_history
            (calculateBreathingRate (audioAnalyze (filterBreathingFrequencies buf))) := by
        simp [BreathingAnalyzer.analyzeBreathing, hb, BreathingAnalyzer.updateHistory]
      rw [hhist] at hx
      rcases mem_pushBounded hx with h1 | h1
      · exact hinv x h1
      · rw [h1]
        exact hclamp _
  · intro h hne hrange
    have hsum : 0 < h.sum :=
      List.sum_pos h (fun x hx => lt_of_lt_of_le (by norm_num) (hrange x hx).1) hne
    have hlen : (0 : ℝ) < h.length := by
      exact_mod_cast List.length_pos.mpr hne
    exact div_pos hsum hlen

/-- Witness for C10: a one-sample buffer under the zero analysis yields a
rate in [4, 60], and the singleton history [10] has positive mean. -/
theorem breathing_rate_clamped_witness :
    (([1] : List ℝ) ≠ []) ∧
    (4 ≤ (BreathingAnalyzer.analyzeBreathing (fun _ => zeroAudioAnalysis)
        (mkBreathingAnalyzer 8 44100) [1]).2.breathing_rate ∧
      (BreathingAnalyzer.analyzeBreathing (fun _ => zeroAudioAnalysis)
        (mkBreathingAnalyzer 8 44100) [1]).2.breathing_rate ≤ 60) ∧
    (([10] : List ℝ) ≠ []) ∧ (∀ x ∈ ([10] : List ℝ), 4 ≤ x ∧ x ≤ 60) ∧
    0 < meanRate ([10] : List ℝ) := by
  have hmem : ∀ x ∈ ([10] : List ℝ), 4 ≤ x ∧ x ≤ 60 := by
    intro x hx
    simp at hx
    rw [hx]
    norm_num
  exact ⟨by simp,
    (breathing_rate_clamped (fun _ => zeroAudioAnalysis) (mkBreathingAnalyzer 8 44100)
      [1]).2.1 (by simp),
    by simp, hmem,
    (breathing_rate_clamped (fun _ => zeroAudioAnalysis) (mkBreathingAnalyzer 8 44100)
      [1]).2.2.2 [10] (by simp) hmem⟩

end AnantaSound
